import Mathlib

/-!
Shallow embedding of the creation-orchestration workflow of the
pokeapi-challenge-golang repository (internal/core/services/pokemon_service.go,
internal/core/domain/pokemon.go, internal/adapters/external/pokeapi_client.go),
together with theorems settling the frozen claims about it.

The two collaborators the service depends on (the record store and the
catalog client, Go interfaces `ports.PokemonRepository` and
`ports.PokemonAPIClient`) are modelled as an explicit environment of
functions; a Go pair `(*T, error)` becomes `Option T × Option String`
(record, error-message), `fmt.Errorf`-built errors become their message
strings.  Each service run also returns the ordered list of collaborator
calls it made, so that claims of the form "does not invoke X" are provable.
-/

namespace PokeChallenge

/-- Model of Go `strings.TrimSpace`: drop leading and trailing whitespace.
Written over the character list so that it reduces in the kernel. -/
def goTrimSpace (s : String) : String :=
  String.mk (((s.data.dropWhile Char.isWhitespace).reverse.dropWhile Char.isWhitespace).reverse)

/-- Model of Go `strings.ToLower`. -/
def goToLower (s : String) : String :=
  String.mk (s.data.map Char.toLower)

/-- The composite `strings.ToLower(strings.TrimSpace(s))` used throughout the
service and the catalog client. -/
def goNormalize (s : String) : String :=
  goToLower (goTrimSpace s)

/-- domain.Pokemon (internal/core/domain/pokemon.go).  `time.Time` fields are
modelled as opaque `Nat` stamps; the Go struct literal built by the service
leaves ID and the timestamps at their zero values. -/
structure Pokemon where
  ID : Nat
  Name : String
  Type1 : String
  Type2 : String
  Height : Int
  Weight : Int
  BaseExp : Int
  CreatedAt : Nat
  UpdatedAt : Nat
  deriving DecidableEq, Repr

/-- domain.CreatePokemonRequest. -/
structure CreatePokemonRequest where
  Name : String
  Type1 : String
  Type2 : String
  deriving DecidableEq, Repr

/-- A value of Go `interface\x7b\x7d` as stored in the flexible request's map:
the service only ever type-asserts `.(string)`, so the model keeps the
string payload and collapses every non-string value to one constructor. -/
inductive GoValue where
  | str (s : String)
  | nonStr
  deriving DecidableEq, Repr

/-- domain.FlexiblePokemonRequest.  The Go field
`Pokemon map[string]interface\x7b\x7d` is modelled as an association list,
`none` standing for the nil map. -/
structure FlexiblePokemonRequest where
  Name : String
  Type1 : String
  Type2 : String
  Pokemon : Option (List (String × GoValue))
  deriving DecidableEq, Repr

/-- domain.ExternalPokemonResponse; each entry of `types` is kept as the tag
name it carries. -/
structure ExternalPokemonResponse where
  ID : Int
  Name : String
  Height : Int
  Weight : Int
  BaseExperience : Int
  Types : List String
  deriving DecidableEq, Repr

/-- The collaborators of pokemonService: `repository.GetByName`,
`apiClient.GetPokemonData` and `repository.Create`, each modelled as a pure
function.  A Go `(*T, error)` result is a pair of options (both components
can independently be nil or non-nil); `Create` returns only an error. -/
structure Env where
  getByName : String → Option Pokemon × Option String
  getPokemonData : String → Except String ExternalPokemonResponse
  create : Pokemon → Option String

/-- One collaborator invocation, recorded with its argument. -/
inductive CallEvent where
  | getByName (name : String)
  | getPokemonData (identifier : String)
  | create (p : Pokemon)
  deriving DecidableEq, Repr

/-- The Go struct literal `&domain.Pokemon\x7b...\x7d` built by
pokemonService.CreatePokemon: name/height/weight/base experience from the
catalog response, both type fields from the request, everything else left at
the Go zero value. -/
def builtRecord (req : CreatePokemonRequest) (externalData : ExternalPokemonResponse) : Pokemon :=
  { ID := 0
    Name := externalData.Name
    Type1 := req.Type1
    Type2 := req.Type2
    Height := externalData.Height
    Weight := externalData.Weight
    BaseExp := externalData.BaseExperience
    CreatedAt := 0
    UpdatedAt := 0 }

/-- pokemonService.CreatePokemon.  Returns the Go `(*domain.Pokemon, error)`
result as an `Except`, paired with the list of collaborator calls made, in
order. -/
def createPokemon (env : Env) (req : CreatePokemonRequest) :
    Except String Pokemon × List CallEvent :=
  let lookup := env.getByName req.Name
  let existingPokemon := lookup.1
  let err := lookup.2
  if err.isNone && existingPokemon.isSome then
      (Except.error "pokemon with this name already exists",
       [CallEvent.getByName req.Name])
    else
      match env.getPokemonData req.Name with
      | Except.error e =>
          (Except.error ("failed to fetch Pokemon data: " ++ e),
           [CallEvent.getByName req.Name, CallEvent.getPokemonData req.Name])
      | Except.ok externalData =>
          let pokemon := builtRecord req externalData
          match env.create pokemon with
          | some e =>
              (Except.error ("failed to save Pokemon: " ++ e),
               [CallEvent.getByName req.Name, CallEvent.getPokemonData req.Name,
                CallEvent.create pokemon])
          | none =>
              (Except.ok pokemon,
               [CallEvent.getByName req.Name, CallEvent.getPokemonData req.Name,
                CallEvent.create pokemon])

/-- pokemonService.extractPokemonName.  The nil-map check, the two-valued
comma-ok map lookup and the `.(string)` type assertions of the Go source are
mirrored by the option matches. -/
def extractPokemonName (input : FlexiblePokemonRequest) : String :=
  if input.Name ≠ "" then
    goNormalize input.Name
  else
    match input.Pokemon with
    | none => ""
    | some m =>
      match m.lookup "name" with
      | some (GoValue.str nameStr) => goNormalize nameStr
      | _ =>
        match m.lookup "pokemon" with
        | some (GoValue.str nameStr) => goNormalize nameStr
        | _ => ""

/-- pokemonService.CreatePokemonFlexible. -/
def createPokemonFlexible (env : Env) (req : FlexiblePokemonRequest) :
    Except String Pokemon × List CallEvent :=
  let pokemonName := extractPokemonName req
  if pokemonName = "" then
    (Except.error "pokemon name is required", [])
  else
    createPokemon env { Name := pokemonName, Type1 := req.Type1, Type2 := req.Type2 }

/-- Outcome of one HTTP GET as seen by pokeAPIClient.GetPokemonData:
transport failure, or a status code with the decode result of the body. -/
inductive HTTPReply where
  | failure (msg : String)
  | response (status : Nat) (body : Except String ExternalPokemonResponse)

/-- pokeAPIClient.GetPokemonData (internal/adapters/external/pokeapi_client.go):
normalizes the identifier before building the request, maps 404 to a
not-found message, other non-200 statuses to a status message, and a body
decode failure to a decode message. -/
def clientGetPokemonData (remote : String → HTTPReply) (identifier : String) :
    Except String ExternalPokemonResponse :=
  let ident := goNormalize identifier
  match remote ident with
  | HTTPReply.failure msg => Except.error ("failed to make request to PokeAPI: " ++ msg)
  | HTTPReply.response status body =>
    if status = 404 then Except.error ("pokemon '" ++ ident ++ "' not found")
    else if status ≠ 200 then Except.error ("PokeAPI returned status " ++ toString status)
    else
      match body with
      | Except.error e => Except.error ("failed to decode PokeAPI response: " ++ e)
      | Except.ok d => Except.ok d

/-! Concrete fixtures used by the witness theorems. -/

/-- A stored record, as the duplicate-check fixture. -/
def pikachuRecord : Pokemon :=
  { ID := 1, Name := "pikachu", Type1 := "electric", Type2 := "",
    Height := 4, Weight := 60, BaseExp := 112, CreatedAt := 0, UpdatedAt := 0 }

/-- A catalog response fixture. -/
def pikachuEntry : ExternalPokemonResponse :=
  { ID := 25, Name := "pikachu", Height := 4, Weight := 60,
    BaseExperience := 112, Types := ["electric"] }

/-- Environment in which every name lookup finds an existing record. -/
def envDup : Env :=
  { getByName := fun _ => (some pikachuRecord, none)
    getPokemonData := fun _ => Except.error "unexpected catalog call"
    create := fun _ => some "unexpected create call" }

/-- Environment with no stored records, a successful catalog, a successful
store write. -/
def envFresh : Env :=
  { getByName := fun _ => (none, some "record not found")
    getPokemonData := fun _ => Except.ok pikachuEntry
    create := fun _ => none }

/-- Environment whose catalog fetch fails. -/
def envFetchErr : Env :=
  { getByName := fun _ => (none, some "record not found")
    getPokemonData := fun _ => Except.error "pokemon not found"
    create := fun _ => none }

/-- Environment whose store write fails. -/
def envSaveErr : Env :=
  { getByName := fun _ => (none, some "record not found")
    getPokemonData := fun _ => Except.ok pikachuEntry
    create := fun _ => some "database error" }

/-! Claim theorems. -/

/-- C1: when the store's GetByName returns an existing record with no error,
CreatePokemon returns the DuplicateName error, and the call trace is the
single GetByName lookup — so neither the catalog client's GetPokemonData nor
the store's Create is invoked. -/
theorem c1_duplicate_short_circuit (env : Env) (req : CreatePokemonRequest)
    (p : Pokemon) (h : env.getByName req.Name = (some p, none)) :
    createPokemon env req =
      (Except.error "pokemon with this name already exists",
       [CallEvent.getByName req.Name]) := by
  simp [createPokemon, h]

/-- Witness for C1 at a concrete environment and request. -/
theorem c1_witness :
    createPokemon envDup { Name := "pikachu", Type1 := "electric", Type2 := "" } =
      (Except.error "pokemon with this name already exists",
       [CallEvent.getByName "pikachu"]) :=
  c1_duplicate_short_circuit envDup _ pikachuRecord rfl

/-- C6: a flexible request whose name resolution yields the empty string is
rejected with the MissingName error and an empty call trace: no store lookup,
no store write, no catalog call. -/
theorem c6_missing_name_no_calls (env : Env) (req : FlexiblePokemonRequest)
    (h : extractPokemonName req = "") :
    createPokemonFlexible env req =
      (Except.error "pokemon name is required", []) := by
  simp [createPokemonFlexible, h]

/-- Witness for C6: a request carrying only a primary type. -/
theorem c6_witness :
    createPokemonFlexible envDup
        { Name := "", Type1 := "grass", Type2 := "", Pokemon := none } =
      (Except.error "pokemon name is required", []) :=
  c6_missing_name_no_calls envDup _ rfl

/-- C2: when the duplicate check does not fire and the catalog fetch
succeeds, the record CreatePokemon builds and (on a successful write)
returns carries the catalog entry's name exactly as returned (not
re-normalized — `ext.Name` is arbitrary here), its height, weight and base
experience, and the request's two type fields; the catalog entry's type
tags `ext.Types` are arbitrary and do not influence the record. -/
theorem c2_success_record_fields (env : Env) (req : CreatePokemonRequest)
    (ext : ExternalPokemonResponse)
    (hdup : ((env.getByName req.Name).2.isNone && (env.getByName req.Name).1.isSome) = false)
    (hfetch : env.getPokemonData req.Name = Except.ok ext)
    (hsave : env.create (builtRecord req ext) = none) :
    (createPokemon env req).1 = Except.ok
      { ID := 0, Name := ext.Name, Type1 := req.Type1, Type2 := req.Type2,
        Height := ext.Height, Weight := ext.Weight, BaseExp := ext.BaseExperience,
        CreatedAt := 0, UpdatedAt := 0 } := by
  cases hgb : env.getByName req.Name with
  | mk found er =>
    rw [hgb] at hdup
    simp only [] at hdup
    simp [createPokemon, hgb, hdup, hfetch, hsave]
    rfl

/-- Witness for C2 at a concrete environment, request and catalog entry. -/
theorem c2_witness :
    (createPokemon envFresh { Name := "pikachu", Type1 := "electric", Type2 := "" }).1 =
      Except.ok
        { ID := 0, Name := "pikachu", Type1 := "electric", Type2 := "",
          Height := 4, Weight := 60, BaseExp := 112, CreatedAt := 0, UpdatedAt := 0 } :=
  c2_success_record_fields envFresh _ pikachuEntry (by decide) rfl rfl

/-- C5: when the store lookup returns any error (regardless of the record
component), CreatePokemon proceeds: its first collaborator call is the
lookup itself and its second is the catalog client's GetPokemonData with the
request's name. -/
theorem c5_lookup_error_proceeds (env : Env) (req : CreatePokemonRequest)
    (found : Option Pokemon) (e : String)
    (h : env.getByName req.Name = (found, some e)) :
    (createPokemon env req).2.take 2 =
      [CallEvent.getByName req.Name, CallEvent.getPokemonData req.Name] := by
  simp only [createPokemon, h]
  cases hf : env.getPokemonData req.Name with
  | error e2 => simp
  | ok d =>
    cases hc : env.create (builtRecord req d) with
    | none => simp [hc]
    | some e2 => simp [hc]

/-- Witness for C5: a lookup that errors with a not-found message. -/
theorem c5_witness :
    (createPokemon envFresh { Name := "pikachu", Type1 := "electric", Type2 := "" }).2.take 2 =
      [CallEvent.getByName "pikachu", CallEvent.getPokemonData "pikachu"] :=
  c5_lookup_error_proceeds envFresh _ none "record not found" rfl

/-- C7: when the catalog fetch fails, CreatePokemon returns no record and an
error whose message is the fixed "failed to fetch Pokemon data: " text
followed by the underlying error's text, and the trace shows no store
Create call. -/
theorem c7_fetch_error_message (env : Env) (req : CreatePokemonRequest) (e : String)
    (hdup : ((env.getByName req.Name).2.isNone && (env.getByName req.Name).1.isSome) = false)
    (hfetch : env.getPokemonData req.Name = Except.error e) :
    createPokemon env req =
      (Except.error ("failed to fetch Pokemon data: " ++ e),
       [CallEvent.getByName req.Name, CallEvent.getPokemonData req.Name]) := by
  cases hgb : env.getByName req.Name with
  | mk found er =>
    rw [hgb] at hdup
    simp only [] at hdup
    simp [createPokemon, hgb, hdup, hfetch]

/-- Witness for C7: the catalog answers "pokemon not found". -/
theorem c7_witness :
    createPokemon envFetchErr { Name := "missingno", Type1 := "bird", Type2 := "" } =
      (Except.error "failed to fetch Pokemon data: pokemon not found",
       [CallEvent.getByName "missingno", CallEvent.getPokemonData "missingno"]) :=
  c7_fetch_error_message envFetchErr _ "pokemon not found" (by decide) rfl

/-- C8: when the store's Create returns an error, CreatePokemon returns no
record (the constructed record is dropped) and an error whose message is the
fixed "failed to save Pokemon: " text followed by the store error's text. -/
theorem c8_save_error_message (env : Env) (req : CreatePokemonRequest)
    (ext : ExternalPokemonResponse) (e : String)
    (hdup : ((env.getByName req.Name).2.isNone && (env.getByName req.Name).1.isSome) = false)
    (hfetch : env.getPokemonData req.Name = Except.ok ext)
    (hsave : env.create (builtRecord req ext) = some e) :
    (createPokemon env req).1 =
      Except.error ("failed to save Pokemon: " ++ e) := by
  cases hgb : env.getByName req.Name with
  | mk found er =>
    rw [hgb] at hdup
    simp only [] at hdup
    simp [createPokemon, hgb, hdup, hfetch, hsave]

/-- Witness for C8: the store write fails with "database error". -/
theorem c8_witness :
    (createPokemon envSaveErr { Name := "charizard", Type1 := "fire", Type2 := "" }).1 =
      Except.error "failed to save Pokemon: database error" :=
  c8_save_error_message envSaveErr _ pikachuEntry "database error" (by decide) rfl rfl

/-- C9: when name resolution yields a non-empty string, CreatePokemonFlexible
returns exactly the result of CreatePokemon on the request built from the
resolved name and the flexible request's two type fields. -/
theorem c9_flexible_delegates (env : Env) (req : FlexiblePokemonRequest)
    (h : extractPokemonName req ≠ "") :
    createPokemonFlexible env req =
      createPokemon env
        { Name := extractPokemonName req, Type1 := req.Type1, Type2 := req.Type2 } := by
  simp [createPokemonFlexible, h]

/-- Witness for C9 at a concrete flexible request. -/
theorem c9_witness :
    createPokemonFlexible envFresh
        { Name := "pikachu", Type1 := "electric", Type2 := "", Pokemon := none } =
      createPokemon envFresh
        { Name := "pikachu", Type1 := "electric", Type2 := "" } :=
  c9_flexible_delegates envFresh
    { Name := "pikachu", Type1 := "electric", Type2 := "", Pokemon := none }
    (by decide)

/-- Appending anything to a string cannot produce a string with a different
first character. -/
theorem append_ne_of_head_ne (p q e : String) (c d : Char)
    (hp : p.data.head? = some c) (hq : q.data.head? = some d) (hcd : c ≠ d) :
    p ++ e ≠ q := by
  intro h
  have hd : p.data ++ e.data = q.data := by rw [← String.data_append, h]
  cases hl : p.data with
  | nil => rw [hl] at hp; cases hp
  | cons x xs =>
    rw [hl] at hp hd
    rw [← hd] at hq
    simp only [List.cons_append, List.head?_cons, Option.some.injEq] at hp hq
    exact hcd (hp.symm.trans hq)

/-- C10: CreatePokemon reports the DuplicateName error exactly when GetByName
returns a nil error together with a non-nil record; in every other outcome —
error with or without a record, or nil error with nil record — it does not
report DuplicateName and instead calls the catalog client. -/
theorem c10_duplicate_iff (env : Env) (req : CreatePokemonRequest) :
    (((env.getByName req.Name).2.isNone && (env.getByName req.Name).1.isSome) = true →
        (createPokemon env req).1 =
          Except.error "pokemon with this name already exists")
  ∧ (((env.getByName req.Name).2.isNone && (env.getByName req.Name).1.isSome) = false →
        (createPokemon env req).1 ≠
          Except.error "pokemon with this name already exists"
        ∧ CallEvent.getPokemonData req.Name ∈ (createPokemon env req).2) := by
  constructor
  · intro hdup
    simp [createPokemon, hdup]
  · intro hdup
    cases hf : env.getPokemonData req.Name with
    | error e =>
      refine ⟨?_, ?_⟩
      · simp [createPokemon, hdup, hf]
        exact fun hcontra =>
          append_ne_of_head_ne _ _ e 'f' 'p' (by decide) (by decide) (by decide) hcontra
      · simp [createPokemon, hdup, hf]
    | ok d =>
      cases hc : env.create (builtRecord req d) with
      | some e =>
        refine ⟨?_, ?_⟩
        · simp [createPokemon, hdup, hf, hc]
          exact fun hcontra =>
            append_ne_of_head_ne _ _ e 'f' 'p' (by decide) (by decide) (by decide) hcontra
        · simp [createPokemon, hdup, hf, hc]
      | none =>
        refine ⟨?_, ?_⟩
        · simp [createPokemon, hdup, hf, hc]
        · simp [createPokemon, hdup, hf, hc]

/-- Witness for C10, duplicate direction, at a concrete environment. -/
theorem c10_witness :
    (createPokemon envDup { Name := "pikachu", Type1 := "electric", Type2 := "" }).1 =
      Except.error "pokemon with this name already exists" :=
  (c10_duplicate_iff envDup { Name := "pikachu", Type1 := "electric", Type2 := "" }).1
    (by decide)

/-! Amended resolution order for C3, written as the spec's suggested ordered
list of extraction strategies, each returning an optional raw string; the
first present source wins and only then is the winner normalized. -/

/-- The top-level name source: present exactly when the raw string is
non-empty (a whitespace-only name counts as present). -/
def topNameSource (input : FlexiblePokemonRequest) : Option String :=
  if input.Name = "" then none else some input.Name

/-- The nested `name` key source: present when the map exists, has the key,
and the value is a string (even the empty string counts as present). -/
def nestedNameSource (input : FlexiblePokemonRequest) : Option String :=
  match input.Pokemon with
  | none => none
  | some m =>
    match m.lookup "name" with
    | some (GoValue.str s) => some s
    | _ => none

/-- The nested `pokemon` key source: present when the map exists, has the
key, and the value is a string. -/
def nestedEntitySource (input : FlexiblePokemonRequest) : Option String :=
  match input.Pokemon with
  | none => none
  | some m =>
    match m.lookup "pokemon" with
    | some (GoValue.str s) => some s
    | _ => none

/-- Amended resolution: first present source in the fixed order, then
trim+lowercase the winner; empty when no source is present. -/
def extractNameAmended (input : FlexiblePokemonRequest) : String :=
  match topNameSource input <|> nestedNameSource input <|> nestedEntitySource input with
  | some s => goNormalize s
  | none => ""

/-- C3 counterexample: a top-level name consisting only of whitespace does
not yield to the nested sources — the code resolves this request to the
empty string (invalid), not to the nested "pikachu" the claim predicts. -/
theorem c3_counterexample :
    extractPokemonName
        { Name := " ", Type1 := "electric", Type2 := "",
          Pokemon := some [("name", GoValue.str "pikachu")] } = ""
    ∧ ("" : String) ≠ "pikachu" := by decide

/-- C3 amended: resolution follows the fixed precedence top-level name,
nested `name` key, nested `pokemon` key, but a lower-precedence source is
consulted only when the higher-precedence one is absent (top-level: the raw
string is empty; nested `name`: key absent or value not a string) — not when
it is merely empty after trim+lowercase.  The selected source's value is
then trimmed and lowercased, and may itself normalize to the empty string,
making the request invalid. -/
theorem c3_amended_resolution (input : FlexiblePokemonRequest) :
    extractPokemonName input = extractNameAmended input := by
  by_cases h : input.Name = ""
  · cases hm : input.Pokemon with
    | none =>
      simp [extractPokemonName, extractNameAmended, topNameSource, nestedNameSource,
            nestedEntitySource, h, hm]
    | some m =>
      cases hn : m.lookup "name" with
      | some v =>
        cases v with
        | str s =>
          simp [extractPokemonName, extractNameAmended, topNameSource, nestedNameSource,
                nestedEntitySource, h, hm, hn]
        | nonStr =>
          cases hp : m.lookup "pokemon" with
          | some w =>
            cases w with
            | str s =>
              simp [extractPokemonName, extractNameAmended, topNameSource, nestedNameSource,
                    nestedEntitySource, h, hm, hn, hp]
            | nonStr =>
              simp [extractPokemonName, extractNameAmended, topNameSource, nestedNameSource,
                    nestedEntitySource, h, hm, hn, hp]
          | none =>
            simp [extractPokemonName, extractNameAmended, topNameSource, nestedNameSource,
                  nestedEntitySource, h, hm, hn, hp]
      | none =>
        cases hp : m.lookup "pokemon" with
        | some w =>
          cases w with
          | str s =>
            simp [extractPokemonName, extractNameAmended, topNameSource, nestedNameSource,
                  nestedEntitySource, h, hm, hn, hp]
          | nonStr =>
            simp [extractPokemonName, extractNameAmended, topNameSource, nestedNameSource,
                  nestedEntitySource, h, hm, hn, hp]
        | none =>
          simp [extractPokemonName, extractNameAmended, topNameSource, nestedNameSource,
                nestedEntitySource, h, hm, hn, hp]
  · simp [extractPokemonName, extractNameAmended, topNameSource, h]

/-- C4 counterexample: CreatePokemon called directly performs the store
lookup with the raw, un-normalized request name, so the requests
"  PIKACHU  " and "pikachu" do not lead to the same lookup name. -/
theorem c4_counterexample :
    (createPokemon envFresh
        { Name := "  PIKACHU  ", Type1 := "electric", Type2 := "" }).2.head?
        = some (CallEvent.getByName "  PIKACHU  ")
    ∧ (createPokemon envFresh
        { Name := "pikachu", Type1 := "electric", Type2 := "" }).2.head?
        = some (CallEvent.getByName "pikachu")
    ∧ ("  PIKACHU  " : String) ≠ "pikachu" := by decide

/-- C4 amended: trim+lowercase normalization is applied where the flexible
entry point reads a name and inside the catalog client before the remote
fetch — so two flexible requests whose top-level names are "  PIKACHU  "
and "pikachu" behave identically, and the client issues the same remote
request for both identifiers — but CreatePokemon itself does not normalize:
its store lookup always receives the request's name verbatim. -/
theorem c4_amended_normalization (env : Env) (t1 t2 : String)
    (m : Option (List (String × GoValue))) (req : CreatePokemonRequest)
    (remote : String → HTTPReply) :
    createPokemonFlexible env
        { Name := "  PIKACHU  ", Type1 := t1, Type2 := t2, Pokemon := m }
      = createPokemonFlexible env
        { Name := "pikachu", Type1 := t1, Type2 := t2, Pokemon := m }
  ∧ (createPokemon env req).2.head? = some (CallEvent.getByName req.Name)
  ∧ clientGetPokemonData remote "  PIKACHU  " = clientGetPokemonData remote "pikachu" := by
  refine ⟨?_, ?_, ?_⟩
  · have hx : goNormalize "  PIKACHU  " = "pikachu" := by decide
    have hy : goNormalize "pikachu" = "pikachu" := by decide
    simp [createPokemonFlexible, extractPokemonName, hx, hy]
  · cases hgb : env.getByName req.Name with
    | mk found er =>
      simp only [createPokemon, hgb]
      split
      · rfl
      · cases hf : env.getPokemonData req.Name with
        | error e => simp [hf]
        | ok d =>
          cases hc : env.create (builtRecord req d) with
          | some e => simp [hf, hc]
          | none => simp [hf, hc]
  · have hx : goNormalize "  PIKACHU  " = goNormalize "pikachu" := by decide
    simp only [clientGetPokemonData, hx]

end PokeChallenge
